import Mathlib

/-!
Verification of the tinypg context-manager layer (`src/tinypg/context.py`) and the
extension-installer script (`scripts/pgxn_install_extension.py`).

The lifecycle core (`EphemeralDB` / `AsyncEphemeralDB` in `core.py`) is not part of
the visible sources; the context managers only call its constructor, `start()` and
`stop()`.  We therefore embed the context managers as functions over an abstract
environment `Env` that fixes, for each pool index, the outcome of that instance's
`start()` (a URI or a raised error) and of its `stop()` (success or a raised
error).  Every control-flow decision of the Python code — the sequential start
loop of `database_pool`, the `try`/`finally` blocks, the per-instance
`try`/`except Exception: pass` in the sync teardown, `asyncio.gather` with and
without `return_exceptions=True` — is translated structurally.
-/

/-- Error values that can be raised by `start()` / `stop()` or wrapped by the
pool layer.  `aggregateProvisionError` is the pool-level error named by the
specification's taxonomy; the constructor exists in the model so that we can
state whether the code ever raises it. -/
inductive Err where
  | databaseStartError (msg : String)
  | databaseTimeoutError (msg : String)
  | aggregateProvisionError (msgs : List String)
  | stopError (msg : String)
  | other (msg : String)
deriving Repr, DecidableEq

instance {ε α : Type} [DecidableEq ε] [DecidableEq α] : DecidableEq (Except ε α) := fun
  | .ok a, .ok b =>
    match decEq a b with
    | isTrue h => isTrue (congrArg Except.ok h)
    | isFalse h => isFalse fun hc => h (Except.ok.inj hc)
  | .ok _, .error _ => isFalse fun hc => Except.noConfusion hc
  | .error _, .ok _ => isFalse fun hc => Except.noConfusion hc
  | .error a, .error b =>
    match decEq a b with
    | isTrue h => isTrue (congrArg Except.error h)
    | isFalse h => isFalse fun hc => h (Except.error.inj hc)

/-- The configuration with which an `EphemeralDB` / `AsyncEphemeralDB` instance is
constructed: the keyword arguments of its constructor.  `postgres_args` is an
ordered sequence (a list), `none` meaning the argument was not supplied. -/
structure DBConfig where
  port : Option Nat
  cleanup_timeout : Nat
  postgres_args : Option (List String)
  version : Option String
  keep_data : Bool
deriving Repr, DecidableEq

/-- The constructor call made by `database` / `async_database`
(`context.py` lines 39-45 and 81-87): all five keyword arguments are passed
through explicitly. -/
def mkDatabaseConfig (port : Option Nat) (timeout : Nat)
    (postgres_args : Option (List String)) (version : Option String)
    (keep_data : Bool) : DBConfig :=
  { port := port
    cleanup_timeout := timeout
    postgres_args := postgres_args
    version := version
    keep_data := keep_data }

/-- Modelled from the spec: the constructor defaults of `EphemeralDB` /
`AsyncEphemeralDB` live in `core.py`, which is not among the visible sources.
Per the configuration surface of the spec, `postgres_args` defaults to no extra
server arguments and `keep_data` defaults to false.  The pool context managers
(`context.py` lines 129-133 and 185-189) pass only `port`, `cleanup_timeout`
and `version`, so their instances take these defaults. -/
def mkPoolInstanceConfig (port : Option Nat) (cleanup_timeout : Nat)
    (version : Option String) : DBConfig :=
  { port := port
    cleanup_timeout := cleanup_timeout
    postgres_args := none
    version := version
    keep_data := false }

/-- The configuration produced by the signature defaults of `database`
(`context.py` lines 13-19): `port=None`, `timeout=60`, `postgres_args=None`,
`version=None`, `keep_data=False`. -/
def databaseDefaultConfig : DBConfig :=
  mkDatabaseConfig none 60 none none false

/-- The configuration produced by the signature defaults of `async_database`
(`context.py` lines 55-61), which are identical to those of `database`. -/
def asyncDatabaseDefaultConfig : DBConfig :=
  mkDatabaseConfig none 60 none none false

/-- Abstract behaviour of the lifecycle core: for pool index `i`,
`startResult i` is what `db.start()` does for the instance constructed at index
`i` (returns a URI or raises), and `stopResult i` is what `db.stop()` does. -/
structure Env where
  startResult : Nat → Except Err String
  stopResult : Nat → Except Err Unit

/-- `start()` at index `i` succeeds. -/
def startOk (env : Env) (i : Nat) : Bool :=
  match env.startResult i with
  | .ok _ => true
  | .error _ => false

/-- The URI returned by a successful `start()` at index `i` (unused default for
a failing index). -/
def startUri (env : Env) (i : Nat) : String :=
  match env.startResult i with
  | .ok u => u
  | .error _ => ""

/-- Outcome of the startup loop of `database_pool` (`context.py` lines 126-137):
which instances were constructed (with their configs), which were appended to
`databases` (i.e. whose `start()` returned), the collected URIs, and the raised
error if some `start()` raised. -/
structure SyncStartup where
  constructed : List (Nat × DBConfig)
  databases : List Nat
  uris : List String
  failure : Option Err
deriving Repr, DecidableEq

/-- The sequential `for i in range(pool_size)` startup loop of `database_pool`:
at each index the instance is constructed, `start()` is called, and on success
the instance is appended to `databases` and its URI to `uris`; the first raised
`start()` aborts the loop (later indices are never constructed). -/
def syncPoolGo (cfg : Nat → DBConfig) (env : Env) : List Nat → SyncStartup
  | [] => { constructed := [], databases := [], uris := [], failure := none }
  | i :: rest =>
    match env.startResult i with
    | .error e =>
      { constructed := [(i, cfg i)], databases := [], uris := [], failure := some e }
    | .ok uri =>
      let s := syncPoolGo cfg env rest
      { constructed := (i, cfg i) :: s.constructed
        databases := i :: s.databases
        uris := uri :: s.uris
        failure := s.failure }

/-- The teardown loop of `database_pool` (`context.py` lines 143-148):
`for db in databases: try: db.stop() except Exception: pass`.  Every entry of
`databases` gets a `stop()` attempt whose outcome is recorded; an exception
neither aborts the loop nor propagates. -/
def syncTeardown (env : Env) : List Nat → List (Nat × Except Err Unit)
  | [] => []
  | i :: rest => (i, env.stopResult i) :: syncTeardown env rest

/-- Per-instance config used by both pools (`context.py` lines 127 and 183):
`port = None if base_port is None else base_port + i`, and the constructor is
called with only `port`, `cleanup_timeout` and `version`. -/
def poolConfig (timeout : Nat) (version : Option String) (base_port : Option Nat)
    (i : Nat) : DBConfig :=
  mkPoolInstanceConfig (base_port.map fun b => b + i) timeout version

/-- Observable execution of the `database_pool` context manager. -/
structure SyncPoolRun where
  constructedConfigs : List (Nat × DBConfig)
  startedDbs : List Nat
  stops : List (Nat × Except Err Unit)
  result : Except Err (List String)
deriving Repr, DecidableEq

/-- Execution of `database_pool(pool_size, timeout, version, base_port)`
(`context.py` lines 96-148) under environment `env`, with a body that returns
normally.  `result` is what the `with` statement produces for the caller: the
yielded URI list, or the exception that propagates out.  The `finally` teardown
runs in every case and swallows each `stop()` exception, so `result` is the
startup failure when one occurred and the full URI list otherwise. -/
def database_pool (pool_size timeout : Nat) (version : Option String)
    (base_port : Option Nat) (env : Env) : SyncPoolRun :=
  let s := syncPoolGo (poolConfig timeout version base_port) env (List.range pool_size)
  { constructedConfigs := s.constructed
    startedDbs := s.databases
    stops := syncTeardown env s.databases
    result :=
      match s.failure with
      | some e => .error e
      | none => .ok s.uris }

/-- `asyncio.gather` over the `db.start()` tasks of `async_database_pool`
(`context.py` line 195), without `return_exceptions`: if every task succeeds the
results are returned in task order; otherwise one of the raised exceptions
propagates (modelled deterministically as the first failing index in task
order). -/
def gatherStarts (env : Env) : List Nat → Except Err (List String)
  | [] => .ok []
  | i :: rest =>
    match env.startResult i with
    | .error e => .error e
    | .ok uri =>
      match gatherStarts env rest with
      | .error e => .error e
      | .ok uris => .ok (uri :: uris)

/-- `asyncio.gather(..., return_exceptions=True)` (`context.py` line 202):
exceptions are placed in the result list instead of propagating, so the await
itself always succeeds. -/
def gatherReturnExceptions (results : List (Except Err Unit)) :
    Except Err (List (Except Err Unit)) :=
  .ok results

/-- Observable execution of the `async_database_pool` context manager. -/
structure AsyncPoolRun where
  constructedConfigs : List (Nat × DBConfig)
  databases : List Nat
  stops : List (Nat × Except Err Unit)
  teardownResult : Except Err Unit
  result : Except Err (List String)
deriving Repr, DecidableEq

/-- Execution of `async_database_pool(pool_size, timeout, version, base_port)`
(`context.py` lines 151-202) under environment `env`, with a body that returns
normally.  All `pool_size` instances are constructed and appended to
`databases` before any `start()` is awaited; the starts are awaited together
via `gather`; the `finally` block awaits `stop()` on every recorded instance
via `gather(..., return_exceptions=True)`, which never raises, so `result` is
the `gather` outcome of the starts. -/
def async_database_pool (pool_size timeout : Nat) (version : Option String)
    (base_port : Option Nat) (env : Env) : AsyncPoolRun :=
  let idxs := List.range pool_size
  let cfg := poolConfig timeout version base_port
  { constructedConfigs := idxs.map fun i => (i, cfg i)
    databases := idxs
    stops := idxs.map fun i => (i, env.stopResult i)
    teardownResult :=
      match gatherReturnExceptions (idxs.map fun i => env.stopResult i) with
      | .ok _ => .ok ()
      | .error e => .error e
    result := gatherStarts env idxs }

/-- Events observable during one run of the single-instance context managers. -/
inductive SingleEvent where
  | startCall
  | bodyRun
  | stopCall
deriving Repr, DecidableEq

/-- Observable execution of `database` / `async_database`. -/
structure SingleRun where
  events : List SingleEvent
  result : Except Err Unit
deriving Repr, DecidableEq

/-- Execution of the `database` context manager (`context.py` lines 39-51):
`try: uri = db.start(); yield uri; finally: db.stop()`.  The `finally` clause
calls `stop()` whether `start()` raised, the body raised, or the body returned;
`stop()` is not wrapped in an exception handler here, so a `stop()` exception
replaces the in-flight exception (standard `finally` semantics). -/
def database (startRes : Except Err String) (body : String → Except Err Unit)
    (stopRes : Except Err Unit) : SingleRun :=
  match startRes with
  | .error e =>
    { events := [.startCall, .stopCall]
      result :=
        match stopRes with
        | .error e2 => .error e2
        | .ok _ => .error e }
  | .ok uri =>
    match body uri with
    | .error eb =>
      { events := [.startCall, .bodyRun, .stopCall]
        result :=
          match stopRes with
          | .error e2 => .error e2
          | .ok _ => .error eb }
    | .ok _ =>
      { events := [.startCall, .bodyRun, .stopCall]
        result :=
          match stopRes with
          | .error e2 => .error e2
          | .ok _ => .ok () }

/-- Execution of the `async_database` context manager (`context.py` lines
81-93), whose body is line-for-line the awaited form of `database`: the same
`try`/`yield`/`finally` shape around `await db.start()` and `await db.stop()`. -/
def async_database (startRes : Except Err String) (body : String → Except Err Unit)
    (stopRes : Except Err Unit) : SingleRun :=
  match startRes with
  | .error e =>
    { events := [.startCall, .stopCall]
      result :=
        match stopRes with
        | .error e2 => .error e2
        | .ok _ => .error e }
  | .ok uri =>
    match body uri with
    | .error eb =>
      { events := [.startCall, .bodyRun, .stopCall]
        result :=
          match stopRes with
          | .error e2 => .error e2
          | .ok _ => .error eb }
    | .ok _ =>
      { events := [.startCall, .bodyRun, .stopCall]
        result :=
          match stopRes with
          | .error e2 => .error e2
          | .ok _ => .ok () }

/-- Environment of the extension-installer script
(`scripts/pgxn_install_extension.py`): whether `shutil.which("pgxn")` finds the
tool, whether the bundled binaries expose `pg_config`, and — when both are
available — the exit code of the spawned `pgxn install` process. -/
inductive PgxnScenario where
  | toolMissing
  | pgConfigMissing
  | toolRuns (returncode : Nat)
deriving Repr, DecidableEq

/-- `install_extension` (`pgxn_install_extension.py` lines 22-65): raises
`RuntimeError` (modelled as `.error` with the message) when `pgxn` is not on
`PATH` or when `pg_config` cannot be located (second message abridged to avoid
quoting), and otherwise returns `completed.returncode` of the `pgxn install`
subprocess unchanged (`check=False`, so a nonzero code is returned, not
raised). -/
def install_extension : PgxnScenario → Except String Nat
  | .toolMissing =>
    .error "pgxn executable not found. Install pgxnclient (pip install pgxnclient)."
  | .pgConfigMissing =>
    .error "bundled PostgreSQL does not expose pg_config"
  | .toolRuns rc => .ok rc

/-- Process exit code of the script (`pgxn_install_extension.py` lines 85-87):
`raise SystemExit(main())` exits with the integer `main` returns; when
`install_extension` raises, `main` propagates the exception, the `SystemExit`
is never constructed, and CPython terminates with exit code 1 after printing
the traceback. -/
def scriptExitCode (s : PgxnScenario) : Nat :=
  match install_extension s with
  | .ok rc => rc
  | .error _ => 1

/-- True when a pool result is a raised `AggregateProvisionError`. -/
def isAggregateProvisionError : Except Err (List String) → Bool
  | .error (.aggregateProvisionError _) => true
  | _ => false

/-- Environment in which instance 0 starts successfully, every later instance
fails to start, and every stop succeeds. -/
def envFailSecond : Env :=
  { startResult := fun i =>
      if i = 0 then .ok "u0" else .error (.databaseStartError "boom")
    stopResult := fun _ => .ok () }

/-- Environment in which instance 0 fails to start and everything else
succeeds. -/
def envFailFirst : Env :=
  { startResult := fun i =>
      if i = 0 then .error (.databaseStartError "boom") else .ok "u1"
    stopResult := fun _ => .ok () }

/-- Environment in which every start succeeds and instance 0's stop raises. -/
def envStopFail : Env :=
  { startResult := fun i => .ok (if i = 0 then "u0" else "u1")
    stopResult := fun i => if i = 0 then .error (.stopError "killed") else .ok () }

/-- Environment in which every start and every stop succeeds. -/
def envAllOk : Env :=
  { startResult := fun i => .ok (if i = 0 then "u0" else "u1")
    stopResult := fun _ => .ok () }

theorem startOk_iff (env : Env) (i : Nat) :
    startOk env i = true ↔ ∃ u, env.startResult i = .ok u := by
  unfold startOk
  cases h : env.startResult i <;> simp

theorem syncTeardown_eq_map (env : Env) (l : List Nat) :
    syncTeardown env l = l.map fun i => (i, env.stopResult i) := by
  induction l with
  | nil => rfl
  | cons i rest ih => simp [syncTeardown, ih]

theorem syncPoolGo_allOk (cfg : Nat → DBConfig) (env : Env) (l : List Nat)
    (h : ∀ j ∈ l, startOk env j = true) :
    syncPoolGo cfg env l =
      { constructed := l.map fun j => (j, cfg j)
        databases := l
        uris := l.map (startUri env)
        failure := none } := by
  induction l with
  | nil => rfl
  | cons i rest ih =>
    obtain ⟨u, hu⟩ := (startOk_iff env i).1 (h i (by simp))
    have hrest := ih fun j hj => h j (by simp [hj])
    simp [syncPoolGo, hu, hrest, startUri]

theorem syncPoolGo_firstFail (cfg : Nat → DBConfig) (env : Env) (l1 l2 : List Nat)
    (i : Nat) (e : Err) (h1 : ∀ j ∈ l1, startOk env j = true)
    (hi : env.startResult i = .error e) :
    syncPoolGo cfg env (l1 ++ i :: l2) =
      { constructed := (l1.map fun j => (j, cfg j)) ++ [(i, cfg i)]
        databases := l1
        uris := l1.map (startUri env)
        failure := some e } := by
  induction l1 with
  | nil => simp [syncPoolGo, hi]
  | cons a rest ih =>
    obtain ⟨u, hu⟩ := (startOk_iff env a).1 (h1 a (by simp))
    have hrest := ih fun j hj => h1 j (by simp [hj])
    simp [syncPoolGo, hu, hrest, startUri]

theorem syncPoolGo_databases_ok (cfg : Nat → DBConfig) (env : Env) (l : List Nat) :
    ∀ j ∈ (syncPoolGo cfg env l).databases, startOk env j = true := by
  induction l with
  | nil => simp [syncPoolGo]
  | cons i rest ih =>
    intro j hj
    cases h : env.startResult i with
    | error e => simp [syncPoolGo, h] at hj
    | ok u =>
      simp [syncPoolGo, h] at hj
      rcases hj with hj | hj
      · subst hj
        simp [startOk, h]
      · exact ih j hj

theorem syncPoolGo_constructed (cfg : Nat → DBConfig) (env : Env) (l : List Nat) :
    ∀ p ∈ (syncPoolGo cfg env l).constructed, ∃ j, p = (j, cfg j) := by
  induction l with
  | nil => simp [syncPoolGo]
  | cons i rest ih =>
    intro p hp
    cases h : env.startResult i with
    | error e =>
      simp [syncPoolGo, h] at hp
      exact ⟨i, hp⟩
    | ok u =>
      simp [syncPoolGo, h] at hp
      rcases hp with hp | hp
      · exact ⟨i, hp⟩
      · exact ih p hp

theorem syncPoolGo_startIndep (cfg : Nat → DBConfig) (env env' : Env)
    (h : env.startResult = env'.startResult) (l : List Nat) :
    syncPoolGo cfg env l = syncPoolGo cfg env' l := by
  induction l with
  | nil => rfl
  | cons i rest ih => simp [syncPoolGo, h, ih]

theorem gatherStarts_allOk (env : Env) (l : List Nat)
    (h : ∀ j ∈ l, startOk env j = true) :
    gatherStarts env l = .ok (l.map (startUri env)) := by
  induction l with
  | nil => rfl
  | cons i rest ih =>
    obtain ⟨u, hu⟩ := (startOk_iff env i).1 (h i (by simp))
    have hrest := ih fun j hj => h j (by simp [hj])
    simp [gatherStarts, hu, hrest, startUri]

theorem gatherStarts_firstFail (env : Env) (l1 l2 : List Nat) (i : Nat) (e : Err)
    (h1 : ∀ j ∈ l1, startOk env j = true) (hi : env.startResult i = .error e) :
    gatherStarts env (l1 ++ i :: l2) = .error e := by
  induction l1 with
  | nil => simp [gatherStarts, hi]
  | cons a rest ih =>
    obtain ⟨u, hu⟩ := (startOk_iff env a).1 (h1 a (by simp))
    have hrest := ih fun j hj => h1 j (by simp [hj])
    simp [gatherStarts, hu, hrest]

theorem gatherStarts_startIndep (env env' : Env)
    (h : env.startResult = env'.startResult) (l : List Nat) :
    gatherStarts env l = gatherStarts env' l := by
  induction l with
  | nil => rfl
  | cons i rest ih => simp [gatherStarts, h, ih]

theorem range_split (i n : Nat) (h : i < n) :
    ∃ l2 : List Nat, List.range n = List.range i ++ i :: l2 := by
  have h1 : i + (n - i - 1 + 1) = n := by omega
  refine ⟨(List.range (n - i - 1)).map fun j => i + (j + 1), ?_⟩
  conv_lhs => rw [← h1]
  rw [List.range_add, List.range_succ_eq_map]
  simp [List.map_map, Function.comp, Nat.succ_eq_add_one]

/-- C1 counterexample: with pool size 2 where instance 1 fails to start (and
instance 0 started), `database_pool` propagates the original
`DatabaseStartError`; the result is not an `AggregateProvisionError` — no such
wrapping exists anywhere in the code. -/
theorem C1_counterexample :
    (database_pool 2 60 none none envFailSecond).result
        = .error (.databaseStartError "boom") ∧
    isAggregateProvisionError (database_pool 2 60 none none envFailSecond).result
        = false ∧
    isAggregateProvisionError (async_database_pool 2 60 none none envFailSecond).result
        = false := by
  decide

/-- C1 (amended): if the first failing `start()` is at index `i`, every
instance whose `start()` succeeded (indices below `i` in the sync pool; all
constructed instances in the async pool) receives a `stop()` during teardown,
no partial URI list is yielded, and the pool propagates the original failure
`e` itself — not an `AggregateProvisionError`. -/
theorem C1_pool_rollback (n t : Nat) (v : Option String) (bp : Option Nat)
    (env : Env) (i : Nat) (e : Err) (hin : i < n)
    (hfail : env.startResult i = .error e)
    (hfirst : ∀ j, j < i → startOk env j = true) :
    (database_pool n t v bp env).result = .error e ∧
    (database_pool n t v bp env).stops
        = (List.range i).map (fun j => (j, env.stopResult j)) ∧
    (async_database_pool n t v bp env).result = .error e ∧
    (async_database_pool n t v bp env).stops
        = (List.range n).map (fun j => (j, env.stopResult j)) := by
  obtain ⟨l2, hsplit⟩ := range_split i n hin
  have hpre : ∀ j ∈ List.range i, startOk env j = true := fun j hj =>
    hfirst j (List.mem_range.1 hj)
  have hgo := syncPoolGo_firstFail (poolConfig t v bp) env (List.range i) l2 i e hpre hfail
  have hga := gatherStarts_firstFail env (List.range i) l2 i e hpre hfail
  refine ⟨?_, ?_, ?_, ?_⟩
  · simp [database_pool, hsplit, hgo]
  · simp [database_pool, hsplit, hgo, syncTeardown_eq_map]
  · simp [async_database_pool, hsplit, hga]
  · simp [async_database_pool]

theorem C1_pool_rollback_witness :
    (database_pool 2 60 none none envFailSecond).result
        = .error (.databaseStartError "boom") ∧
    (database_pool 2 60 none none envFailSecond).stops
        = (List.range 1).map (fun j => (j, envFailSecond.stopResult j)) ∧
    (async_database_pool 2 60 none none envFailSecond).result
        = .error (.databaseStartError "boom") ∧
    (async_database_pool 2 60 none none envFailSecond).stops
        = (List.range 2).map (fun j => (j, envFailSecond.stopResult j)) :=
  C1_pool_rollback 2 60 none none envFailSecond 1 (.databaseStartError "boom")
    (by decide) rfl (by decide)

/-- C2 counterexample: with two instances that both started and instance 0
whose `stop()` raises, the sync pool still completes with the plain URI list
and the async teardown resolves successfully — the stop failure is recorded
nowhere in what the caller receives, so failures are not "collected and
reported to the caller". -/
theorem C2_counterexample :
    (0, Except.error (Err.stopError "killed"))
        ∈ (database_pool 2 60 none none envStopFail).stops ∧
    (database_pool 2 60 none none envStopFail).result = .ok ["u0", "u1"] ∧
    (async_database_pool 2 60 none none envStopFail).teardownResult = .ok () ∧
    (async_database_pool 2 60 none none envStopFail).result = .ok ["u0", "u1"] := by
  decide

/-- C2 (amended): one instance's `stop()` failure does not prevent `stop()`
from being attempted on every remaining instance — the sync pool attempts a
stop on every started instance whatever the individual outcomes, and the async
pool on all instances with a never-raising gather — but the failures are
swallowed, not reported: the caller-visible result depends only on the start
outcomes. -/
theorem C2_teardown_no_short_circuit (n t : Nat) (v : Option String)
    (bp : Option Nat) (env env' : Env)
    (hstart : env.startResult = env'.startResult) :
    (database_pool n t v bp env).stops
        = (database_pool n t v bp env).startedDbs.map (fun j => (j, env.stopResult j)) ∧
    (database_pool n t v bp env).result = (database_pool n t v bp env').result ∧
    (async_database_pool n t v bp env).stops
        = (List.range n).map (fun j => (j, env.stopResult j)) ∧
    (async_database_pool n t v bp env).teardownResult = .ok () ∧
    (async_database_pool n t v bp env).result
        = (async_database_pool n t v bp env').result := by
  refine ⟨?_, ?_, ?_, ?_, ?_⟩
  · simp [database_pool, syncTeardown_eq_map]
  · simp [database_pool, syncPoolGo_startIndep (poolConfig t v bp) env env' hstart]
  · rfl
  · rfl
  · simp [async_database_pool, gatherStarts_startIndep env env' hstart]

theorem C2_teardown_no_short_circuit_witness :
    (database_pool 2 60 none none envStopFail).stops
        = (database_pool 2 60 none none envStopFail).startedDbs.map
            (fun j => (j, envStopFail.stopResult j)) ∧
    (database_pool 2 60 none none envStopFail).result
        = (database_pool 2 60 none none envAllOk).result ∧
    (async_database_pool 2 60 none none envStopFail).stops
        = (List.range 2).map (fun j => (j, envStopFail.stopResult j)) ∧
    (async_database_pool 2 60 none none envStopFail).teardownResult = .ok () ∧
    (async_database_pool 2 60 none none envStopFail).result
        = (async_database_pool 2 60 none none envAllOk).result :=
  C2_teardown_no_short_circuit 2 60 none none envStopFail envAllOk rfl

/-- C3 counterexample: with pool size 2 and instance 0 failing to start, the
sync pool constructs only instance 0 and attempts no stop (nothing was
started), while the async pool constructs both instances and awaits `stop()`
on both — the two context managers are observably different, hence not of
identical semantics. -/
theorem C3_counterexample :
    (database_pool 2 60 none none envFailFirst).stops = [] ∧
    (async_database_pool 2 60 none none envFailFirst).stops
        = [(0, .ok ()), (1, .ok ())] ∧
    (database_pool 2 60 none none envFailFirst).constructedConfigs.length = 1 ∧
    (async_database_pool 2 60 none none envFailFirst).constructedConfigs.length = 2 := by
  decide

/-- C3 (amended): when every `start()` succeeds, the two pools agree — same
yielded URI sequence (in index order), same constructed configurations, same
teardown stop attempts; their semantics diverge only in failure handling and
in sequential-versus-concurrent provisioning. -/
theorem C3_pool_equiv_on_success (n t : Nat) (v : Option String) (bp : Option Nat)
    (env : Env) (hok : ∀ j, j < n → startOk env j = true) :
    (database_pool n t v bp env).result = (async_database_pool n t v bp env).result ∧
    (database_pool n t v bp env).result = .ok ((List.range n).map (startUri env)) ∧
    (database_pool n t v bp env).constructedConfigs
        = (async_database_pool n t v bp env).constructedConfigs ∧
    (database_pool n t v bp env).stops = (async_database_pool n t v bp env).stops := by
  have hmem : ∀ j ∈ List.range n, startOk env j = true := fun j hj =>
    hok j (List.mem_range.1 hj)
  have hgo := syncPoolGo_allOk (poolConfig t v bp) env (List.range n) hmem
  have hga := gatherStarts_allOk env (List.range n) hmem
  refine ⟨?_, ?_, ?_, ?_⟩ <;>
    simp [database_pool, async_database_pool, hgo, hga, syncTeardown_eq_map]

theorem C3_pool_equiv_on_success_witness :
    (database_pool 2 60 none none envAllOk).result
        = (async_database_pool 2 60 none none envAllOk).result ∧
    (database_pool 2 60 none none envAllOk).result
        = .ok ((List.range 2).map (startUri envAllOk)) ∧
    (database_pool 2 60 none none envAllOk).constructedConfigs
        = (async_database_pool 2 60 none none envAllOk).constructedConfigs ∧
    (database_pool 2 60 none none envAllOk).stops
        = (async_database_pool 2 60 none none envAllOk).stops :=
  C3_pool_equiv_on_success 2 60 none none envAllOk (by decide)

/-- C4: the `try`/`finally` of `database` and `async_database` calls `stop()`
on the instance in every case — when `start()` itself raised, when the body
raised, and when the body completed normally. -/
theorem C4_scope_exit_always_stops (startRes : Except Err String)
    (body : String → Except Err Unit) (stopRes : Except Err Unit) :
    SingleEvent.stopCall ∈ (database startRes body stopRes).events ∧
    SingleEvent.stopCall ∈ (async_database startRes body stopRes).events := by
  cases startRes with
  | error e => simp [database, async_database]
  | ok uri => cases h : body uri <;> simp [database, async_database, h]

/-- C5: with `base_port` supplied, the instance at index `i` is constructed
with port `base_port + i` and the i-th yielded URI is that instance's URI;
with `base_port` omitted every instance is constructed with port `None`. -/
theorem C5_pool_ports (n t : Nat) (v : Option String) (b : Nat) (env : Env)
    (i : Nat) (hin : i < n) (hok : ∀ j, j < n → startOk env j = true) :
    ((database_pool n t v (some b) env).constructedConfigs)[i]?
        = some (i, mkPoolInstanceConfig (some (b + i)) t v) ∧
    ((async_database_pool n t v (some b) env).constructedConfigs)[i]?
        = some (i, mkPoolInstanceConfig (some (b + i)) t v) ∧
    ((database_pool n t v none env).constructedConfigs)[i]?
        = some (i, mkPoolInstanceConfig none t v) ∧
    ((async_database_pool n t v none env).constructedConfigs)[i]?
        = some (i, mkPoolInstanceConfig none t v) ∧
    (database_pool n t v (some b) env).result
        = .ok ((List.range n).map (startUri env)) ∧
    (async_database_pool n t v (some b) env).result
        = .ok ((List.range n).map (startUri env)) ∧
    ((List.range n).map (startUri env))[i]? = some (startUri env i) := by
  have hmem : ∀ j ∈ List.range n, startOk env j = true := fun j hj =>
    hok j (List.mem_range.1 hj)
  have hgo1 := syncPoolGo_allOk (poolConfig t v (some b)) env (List.range n) hmem
  have hgo2 := syncPoolGo_allOk (poolConfig t v none) env (List.range n) hmem
  have hga := gatherStarts_allOk env (List.range n) hmem
  refine ⟨?_, ?_, ?_, ?_, ?_, ?_, ?_⟩ <;>
    simp [database_pool, async_database_pool, hgo1, hgo2, hga, poolConfig,
      List.getElem?_map, List.getElem?_range hin]

theorem C5_pool_ports_witness :
    ((database_pool 2 60 none (some 5432) envAllOk).constructedConfigs)[1]?
        = some (1, mkPoolInstanceConfig (some (5432 + 1)) 60 none) ∧
    ((async_database_pool 2 60 none (some 5432) envAllOk).constructedConfigs)[1]?
        = some (1, mkPoolInstanceConfig (some (5432 + 1)) 60 none) ∧
    ((database_pool 2 60 none none envAllOk).constructedConfigs)[1]?
        = some (1, mkPoolInstanceConfig none 60 none) ∧
    ((async_database_pool 2 60 none none envAllOk).constructedConfigs)[1]?
        = some (1, mkPoolInstanceConfig none 60 none) ∧
    (database_pool 2 60 none (some 5432) envAllOk).result
        = .ok ((List.range 2).map (startUri envAllOk)) ∧
    (async_database_pool 2 60 none (some 5432) envAllOk).result
        = .ok ((List.range 2).map (startUri envAllOk)) ∧
    ((List.range 2).map (startUri envAllOk))[1]? = some (startUri envAllOk 1) :=
  C5_pool_ports 2 60 none 5432 envAllOk 1 (by decide) (by decide)

/-- C6 counterexample: when `pgxn` is not on `PATH` the script terminates via
an uncaught `RuntimeError`, i.e. with interpreter exit code 1 — exactly the
code it also produces when `pgxn` itself exits with 1, so the "tool not found"
code is not distinct from mirrored tool codes. -/
theorem C6_counterexample :
    scriptExitCode PgxnScenario.toolMissing = 1 ∧
    scriptExitCode (PgxnScenario.toolRuns 1) = 1 := by
  decide

/-- C6 (amended): the script exits 0 on success and mirrors the `pgxn`
subprocess exit code on failure; when `pgxn` is not found, `install_extension`
raises `RuntimeError`, which escapes `main` uncaught, so the interpreter exits
with code 1 — a code that collides with mirrored tool codes rather than being
reserved. -/
theorem C6_exit_codes (rc : Nat) :
    scriptExitCode (PgxnScenario.toolRuns rc) = rc ∧
    scriptExitCode (PgxnScenario.toolRuns 0) = 0 ∧
    scriptExitCode PgxnScenario.toolMissing = 1 ∧
    install_extension PgxnScenario.toolMissing
        = .error "pgxn executable not found. Install pgxnclient (pip install pgxnclient)." :=
  ⟨rfl, rfl, rfl, rfl⟩

/-- C7: the signature defaults of `database` and `async_database` match the
spec's configuration surface: port auto-assigned (`None`), cleanup timeout 60
seconds, no extra server arguments (an ordered list when supplied), default
engine version, and `keep_data = False`; both context managers share the same
surface. -/
theorem C7_config_defaults :
    databaseDefaultConfig.port = none ∧
    databaseDefaultConfig.cleanup_timeout = 60 ∧
    databaseDefaultConfig.postgres_args = none ∧
    databaseDefaultConfig.version = none ∧
    databaseDefaultConfig.keep_data = false ∧
    asyncDatabaseDefaultConfig = databaseDefaultConfig := by
  decide

/-- C8: in the sync `database_pool`, `databases.append(db)` runs only after
`db.start()` returned, so an instance whose `start()` raised is never in
`databases` and the rollback loop never calls `stop()` on it. -/
theorem C8_failed_never_stopped (n t : Nat) (v : Option String) (bp : Option Nat)
    (env : Env) (i : Nat) (e : Err) (hfail : env.startResult i = .error e) :
    i ∉ (database_pool n t v bp env).startedDbs ∧
    ∀ r, (i, r) ∉ (database_pool n t v bp env).stops := by
  have hok : ∀ j ∈ (syncPoolGo (poolConfig t v bp) env (List.range n)).databases,
      startOk env j = true := syncPoolGo_databases_ok (poolConfig t v bp) env (List.range n)
  have hni : i ∉ (syncPoolGo (poolConfig t v bp) env (List.range n)).databases := by
    intro hmem
    have h1 := hok i hmem
    rw [startOk, hfail] at h1
    simp at h1
  constructor
  · simpa [database_pool] using hni
  · intro r hmem
    rw [show (database_pool n t v bp env).stops
        = syncTeardown env (syncPoolGo (poolConfig t v bp) env (List.range n)).databases
        from rfl, syncTeardown_eq_map] at hmem
    obtain ⟨j, hj, hje⟩ := List.mem_map.1 hmem
    obtain ⟨hj1, _⟩ := Prod.mk.inj hje
    exact hni (hj1 ▸ hj)

theorem C8_failed_never_stopped_witness :
    1 ∉ (database_pool 2 60 none none envFailSecond).startedDbs ∧
    ∀ r, (1, r) ∉ (database_pool 2 60 none none envFailSecond).stops :=
  C8_failed_never_stopped 2 60 none none envFailSecond 1
    (.databaseStartError "boom") rfl

/-- C9: `async_database_pool` appends every constructed instance to
`databases` before any `start()` is awaited, so teardown awaits `stop()` on
all `pool_size` instances — including ones whose start failed — and the
`return_exceptions=True` gather makes the teardown itself never raise. -/
theorem C9_async_teardown_total (n t : Nat) (v : Option String) (bp : Option Nat)
    (env : Env) :
    (async_database_pool n t v bp env).databases = List.range n ∧
    (async_database_pool n t v bp env).stops
        = (List.range n).map (fun j => (j, env.stopResult j)) ∧
    (async_database_pool n t v bp env).teardownResult = .ok () :=
  ⟨rfl, rfl, rfl⟩

/-- C10: neither pool passes `keep_data` or `postgres_args` to the instance
constructor, so every pool instance is configured with `keep_data = False`
(data directory reclaimed on stop) and no extra server arguments; retention
cannot be requested through the pool interface. -/
theorem C10_pool_no_retention (n t : Nat) (v : Option String) (bp : Option Nat)
    (env : Env) :
    (∀ p ∈ (database_pool n t v bp env).constructedConfigs,
        p.2.keep_data = false ∧ p.2.postgres_args = none) ∧
    (∀ p ∈ (async_database_pool n t v bp env).constructedConfigs,
        p.2.keep_data = false ∧ p.2.postgres_args = none) := by
  constructor
  · intro p hp
    obtain ⟨j, hj⟩ := syncPoolGo_constructed (poolConfig t v bp) env (List.range n) p
      (by simpa [database_pool] using hp)
    subst hj
    simp [poolConfig, mkPoolInstanceConfig]
  · intro p hp
    have hp' : ∃ a, a < n ∧ (a, poolConfig t v bp a) = p := by
      simpa [async_database_pool] using hp
    obtain ⟨j, _, hj⟩ := hp'
    subst hj
    simp [poolConfig, mkPoolInstanceConfig]

theorem C10_pool_no_retention_witness :
    (0, mkPoolInstanceConfig (some 5432) 60 none).2.keep_data = false ∧
    (0, mkPoolInstanceConfig (some 5432) 60 none).2.postgres_args = none :=
  (C10_pool_no_retention 1 60 none (some 5432) envAllOk).1
    (0, mkPoolInstanceConfig (some 5432) 60 none) (by decide)
